import Mathlib

/-!
Shallow embedding of the asset-management back end (src/main.py, src/schemas.py).

Modelling conventions:
- Time is a `Nat` tick count (the source stores ISO-8601 instants whose ordering
  agrees with the underlying instants); `datetime.now` becomes an explicit `now`
  argument to every handler that reads the clock.
- The Mongo collections become Lean lists in insertion order; `find_one` is
  `List.find?`, `find` with a filter is `List.filter`, `insert_one` appends,
  `update_one` updates the first match, `update_many` maps over all matches.
- The process-wide `TOKENS` dict becomes an association list.
- `hash_password` (a sha256 digest of salt ++ password) is an opaque
  deterministic transform; handlers take it as an explicit function argument.
- `secrets.token_urlsafe` is nondeterministic; handlers take the freshly
  generated token as an explicit argument.
- A raised `HTTPException` becomes an `Except.error` carrying the status code
  and detail string; database writes performed before the raise persist, so
  every handler returns its result together with the final state.
- The Mongo `_id` field is an opaque storage identifier that no check in the
  source ever reads (the session field `user_id` derived from it is never
  consulted), so it is omitted from the embedding.
-/

/-- Stored user document (collection "user"). -/
structure UserDoc where
  name : String
  email : String
  role : String
  is_active : Bool
  hashed_password : String
  created_at : Nat
  updated_at : Nat
  deriving Repr, DecidableEq

/-- Document reference attached to an asset. -/
structure AssetDocRef where
  filename : String
  url : String
  uploaded_at : Nat
  category : String
  deriving Repr, DecidableEq

/-- Stored asset document (collection "asset"). -/
structure AssetDoc where
  asset_id : String
  name : String
  type : String
  serial_number : Option String
  purchase_date : Option Nat
  supplier_name : Option String
  warranty_period_months : Option Nat
  status : String
  documents : List AssetDocRef
  created_by : String
  created_at : Nat
  updated_at : Nat
  deriving Repr, DecidableEq

/-- Stored assignment document (collection "assignment"). -/
structure AssignmentDoc where
  asset_id : String
  assignee_type : String
  assignee_name : String
  issue_date : Nat
  responsible_person : Option String
  designation : Option String
  notes : Option String
  active : Bool
  created_by : String
  created_at : Nat
  deriving Repr, DecidableEq

/-- Stored maintenance document (collection "maintenance"); `cost` is stored
and echoed back but never used in arithmetic by the source. -/
structure MaintenanceDoc where
  asset_id : String
  service_date : Nat
  service_type : String
  cost : Option Nat
  notes : Option String
  next_service_date : Option Nat
  created_by : String
  created_at : Nat
  deriving Repr, DecidableEq

/-- Stored inventory-threshold document (collection "inventorythreshold"). -/
structure ThresholdDoc where
  item_name : String
  current_level : Nat
  min_level : Nat
  unit : Option String
  deriving Repr, DecidableEq

/-- Stored requisition document (collection "requisition"). -/
structure RequisitionDoc where
  item_name : String
  requested_by : String
  quantity : Nat
  reason : Option String
  status : String
  requested_at : Nat
  requested_by_user : String
  deriving Repr, DecidableEq

/-- The document store: one list per collection, in insertion order. -/
structure DB where
  users : List UserDoc
  assets : List AssetDoc
  assignments : List AssignmentDoc
  maintenance : List MaintenanceDoc
  thresholds : List ThresholdDoc
  requisitions : List RequisitionDoc
  deriving Repr, DecidableEq

/-- Session payload stored in the process-wide TOKENS table. -/
structure SessionPayload where
  email : String
  role : String
  issued_at : Nat
  expires_at : Nat
  deriving Repr, DecidableEq

/-- Full mutable state: the document store plus the in-memory TOKENS table. -/
structure AppState where
  db : DB
  tokens : List (String × SessionPayload)
  deriving Repr, DecidableEq

/-- Bearer credentials as parsed from the Authorization header. -/
structure HTTPAuthorizationCredentials where
  scheme : String
  credentials : String
  deriving Repr, DecidableEq

/-- A raised HTTPException: status code and detail message. -/
structure HTTPError where
  status : Nat
  detail : String
  deriving Repr, DecidableEq

/-- Response of register and login: token plus public user fields. -/
structure AuthResponse where
  token : String
  role : String
  name : String
  email : String
  deriving Repr, DecidableEq

/-- TOKENS.get: dictionary lookup by exact key. -/
def tokensGet (ts : List (String × SessionPayload)) (k : String) : Option SessionPayload :=
  (ts.find? (fun kv => kv.1 == k)).map Prod.snd

/-- TOKENS.pop: dictionary removal, a no-op when the key is absent. -/
def tokensPop (ts : List (String × SessionPayload)) (k : String) :
    List (String × SessionPayload) :=
  ts.filter (fun kv => !(kv.1 == k))

/-- TOKENS[k] = v: dictionary insert-or-replace. -/
def tokensSet (ts : List (String × SessionPayload)) (k : String) (v : SessionPayload) :
    List (String × SessionPayload) :=
  (k, v) :: tokensPop ts k

/-- Session lifetime added to the issue instant, 12 hours in the tick unit. -/
def twelveHours : Nat := 12 * 60 * 60

/-- create_token: store a session payload for a fresh token; expiry is exactly
twelve hours after issuance. -/
def create_token (now : Nat) (token : String) (user : UserDoc)
    (ts : List (String × SessionPayload)) : List (String × SessionPayload) :=
  tokensSet ts token
    { email := user.email
      role := user.role
      issued_at := now
      expires_at := now + twelveHours }

/-- Lowercasing of a string, written structurally over the character list so
that it evaluates by kernel reduction; models str.lower of the source. -/
def lowerStr (s : String) : String := String.mk (s.data.map Char.toLower)

/-- get_current_user: resolve bearer credentials to a live user document.
The expiry branch in the source raises inside a try block whose handler is
a bare pass, so the raise is swallowed: only the pop of the token takes
effect and execution falls through to the user lookup. -/
def get_current_user (now : Nat) (credentials : Option HTTPAuthorizationCredentials)
    (s : AppState) : Except HTTPError UserDoc × AppState :=
  match credentials with
  | none => (.error ⟨401, "Not authenticated"⟩, s)
  | some cred =>
    if lowerStr cred.scheme ≠ "bearer" then (.error ⟨401, "Not authenticated"⟩, s)
    else
      match tokensGet s.tokens cred.credentials with
      | none => (.error ⟨401, "Invalid token"⟩, s)
      | some payload =>
        let tokens1 :=
          if payload.expires_at < now then tokensPop s.tokens cred.credentials
          else s.tokens
        let s1 : AppState := { s with tokens := tokens1 }
        match s1.db.users.find? (fun u => u.email == payload.email) with
        | none => (.error ⟨401, "User not found"⟩, s1)
        | some user => (.ok user, s1)

/-- require_role: run get_current_user, then check the live role against the
allowed list. -/
def require_role (required : List String) (now : Nat)
    (credentials : Option HTTPAuthorizationCredentials) (s : AppState) :
    Except HTTPError UserDoc × AppState :=
  match get_current_user now credentials s with
  | (.error e, s1) => (.error e, s1)
  | (.ok user, s1) =>
    if required.contains user.role then (.ok user, s1)
    else (.error ⟨403, "Insufficient permissions"⟩, s1)

/-- Request body of POST /auth/register. -/
structure RegisterRequest where
  name : String
  email : String
  password : String
  role : String
  deriving Repr, DecidableEq

/-- Request body of POST /auth/login. -/
structure LoginRequest where
  email : String
  password : String
  deriving Repr, DecidableEq

/-- register: open registration. The effective-role expression is translated
verbatim from the source: requester_role is "admin" exactly when no admin
user exists, and the stored role is the requested role unless an admin
already exists, in which case it is forced to "staff". -/
def register (hashPassword : String → String) (now : Nat) (newToken : String)
    (payload : RegisterRequest) (s : AppState) : Except HTTPError AuthResponse × AppState :=
  let admin_exists := s.db.users.find? (fun u => u.role == "admin")
  let requester_role : Option String := if admin_exists.isNone then some "admin" else none
  match s.db.users.find? (fun u => u.email == payload.email) with
  | some _ => (.error ⟨400, "Email already registered"⟩, s)
  | none =>
    let user_doc : UserDoc :=
      { name := payload.name
        email := payload.email
        role :=
          if requester_role = some "admin" then payload.role
          else if admin_exists.isNone then payload.role else "staff"
        is_active := true
        hashed_password := hashPassword payload.password
        created_at := now
        updated_at := now }
    let s1 : AppState := { s with db := { s.db with users := s.db.users ++ [user_doc] } }
    let tokens1 := create_token now newToken user_doc s1.tokens
    (.ok { token := newToken, role := user_doc.role, name := user_doc.name,
           email := user_doc.email },
     { s1 with tokens := tokens1 })

/-- login: credential check with an identical error for unknown email and for
password mismatch. -/
def login (hashPassword : String → String) (now : Nat) (newToken : String)
    (payload : LoginRequest) (s : AppState) : Except HTTPError AuthResponse × AppState :=
  match s.db.users.find? (fun u => u.email == payload.email) with
  | none => (.error ⟨401, "Invalid credentials"⟩, s)
  | some user =>
    if user.hashed_password ≠ hashPassword payload.password then
      (.error ⟨401, "Invalid credentials"⟩, s)
    else
      let tokens1 := create_token now newToken user s.tokens
      (.ok { token := newToken, role := user.role, name := user.name, email := user.email },
       { s with tokens := tokens1 })

/-- update_one: update the first document matching the filter. -/
def updateFirst {α : Type} (p : α → Bool) (f : α → α) : List α → List α
  | [] => []
  | x :: xs => if p x then f x :: xs else x :: updateFirst p f xs

/-- Mongo filter (asset_id = aid, active = true) on assignment documents. -/
def isActiveFor (aid : String) (a : AssignmentDoc) : Bool :=
  a.asset_id == aid && a.active

/-- update_many on the assignment collection with filter
(asset_id = aid, active = true) and update (set active = false). -/
def deactivateAll (aid : String) (l : List AssignmentDoc) : List AssignmentDoc :=
  l.map (fun a => if isActiveFor aid a then { a with active := false } else a)

/-- Checks whether the second character list starts with the first. -/
def startsWithChars : List Char → List Char → Bool
  | [], _ => true
  | _ :: _, [] => false
  | n :: ns, h :: hs => n == h && startsWithChars ns hs

/-- Checks whether the first character list occurs contiguously in the second. -/
def subChars (needle : List Char) : List Char → Bool
  | [] => needle.isEmpty
  | h :: hs => startsWithChars needle (h :: hs) || subChars needle hs

/-- Case-insensitive substring match, modelling the case-insensitive regex
filter of the asset search (regex metacharacters in the query are out of
scope; the claims do not depend on the match semantics). -/
def regexMatchCI (q field : String) : Bool :=
  subChars (lowerStr q).data (lowerStr field).data

/-- Request body of POST /assets. -/
structure AssetCreateRequest where
  asset_id : String
  name : String
  type : String
  serial_number : Option String
  purchase_date : Option Nat
  supplier_name : Option String
  warranty_period_months : Option Nat
  deriving Repr, DecidableEq

/-- Request body of POST /assignments. -/
structure AssignmentCreateRequest where
  asset_id : String
  assignee_type : String
  assignee_name : String
  issue_date : Nat
  responsible_person : Option String
  designation : Option String
  notes : Option String
  deriving Repr, DecidableEq

/-- Request body of POST /maintenance. -/
structure MaintenanceCreateRequest where
  asset_id : String
  service_date : Nat
  service_type : String
  cost : Option Nat
  notes : Option String
  next_service_date : Option Nat
  deriving Repr, DecidableEq

/-- create_asset handler body; `user` is the caller resolved by the
require_role dependency on the route. Rejects a duplicate asset_id before
any write. -/
def create_asset (now : Nat) (user : UserDoc) (payload : AssetCreateRequest)
    (s : AppState) : Except HTTPError AssetDoc × AppState :=
  match s.db.assets.find? (fun a => a.asset_id == payload.asset_id) with
  | some _ => (.error ⟨400, "Asset ID already exists"⟩, s)
  | none =>
    let asset : AssetDoc :=
      { asset_id := payload.asset_id
        name := payload.name
        type := payload.type
        serial_number := payload.serial_number
        purchase_date := payload.purchase_date
        supplier_name := payload.supplier_name
        warranty_period_months := payload.warranty_period_months
        status := "available"
        documents := []
        created_by := user.email
        created_at := now
        updated_at := now }
    (.ok asset, { s with db := { s.db with assets := s.db.assets ++ [asset] } })

/-- GET /assets: optional case-insensitive search across asset_id, name and
type. An empty query string is falsy in the source and disables the filter. -/
def list_assets (q : Option String) (s : AppState) : List AssetDoc :=
  match q with
  | none => s.db.assets
  | some qs =>
    if qs = "" then s.db.assets
    else s.db.assets.filter (fun a =>
      regexMatchCI qs a.asset_id || regexMatchCI qs a.name || regexMatchCI qs a.type)

/-- GET /assets/{id}: lookup by asset_id, 404 when absent. -/
def get_asset (asset_id : String) (s : AppState) : Except HTTPError AssetDoc :=
  match s.db.assets.find? (fun a => a.asset_id == asset_id) with
  | none => .error ⟨404, "Asset not found"⟩
  | some a => .ok a

/-- create_assignment handler body: require the asset to exist, deactivate all
previously active assignments for it, insert the new active assignment, mark
the asset assigned. -/
def create_assignment (now : Nat) (user : UserDoc) (payload : AssignmentCreateRequest)
    (s : AppState) : Except HTTPError AssignmentDoc × AppState :=
  match s.db.assets.find? (fun a => a.asset_id == payload.asset_id) with
  | none => (.error ⟨404, "Asset not found"⟩, s)
  | some _ =>
    let assignments1 := deactivateAll payload.asset_id s.db.assignments
    let assignment : AssignmentDoc :=
      { asset_id := payload.asset_id
        assignee_type := payload.assignee_type
        assignee_name := payload.assignee_name
        issue_date := payload.issue_date
        responsible_person := payload.responsible_person
        designation := payload.designation
        notes := payload.notes
        active := true
        created_by := user.email
        created_at := now }
    let assignments2 := assignments1 ++ [assignment]
    let assets1 := updateFirst (fun a => a.asset_id == payload.asset_id)
      (fun a => { a with status := "assigned", updated_at := now }) s.db.assets
    (.ok assignment,
     { s with db := { s.db with assignments := assignments2, assets := assets1 } })

/-- return_asset handler body: deactivate all active assignments of the asset;
if none was modified raise 404 (the asset-status write is then not reached),
otherwise mark the asset available. -/
def return_asset (asset_id : String) (now : Nat) (user : UserDoc)
    (s : AppState) : Except HTTPError String × AppState :=
  let modified_count := (s.db.assignments.filter (isActiveFor asset_id)).length
  let assignments1 := deactivateAll asset_id s.db.assignments
  let s1 : AppState := { s with db := { s.db with assignments := assignments1 } }
  if modified_count = 0 then (.error ⟨404, "No active assignment found"⟩, s1)
  else
    let assets1 := updateFirst (fun a => a.asset_id == asset_id)
      (fun a => { a with status := "available", updated_at := now }) s1.db.assets
    (.ok "Asset returned", { s1 with db := { s1.db with assets := assets1 } })

/-- GET /assignments: optional exact filters. An empty asset_id string is
falsy in the source and disables that filter; the active filter applies
whenever the parameter is present. -/
def list_assignments (asset_id : Option String) (active : Option Bool)
    (s : AppState) : List AssignmentDoc :=
  s.db.assignments.filter (fun a =>
    (match asset_id with
     | some aid => if aid = "" then true else a.asset_id == aid
     | none => true) &&
    (match active with
     | some b => a.active == b
     | none => true))

/-- add_maintenance handler body: require the asset to exist, insert the
record, then unconditionally mark the asset status "maintenance". -/
def add_maintenance (now : Nat) (user : UserDoc) (payload : MaintenanceCreateRequest)
    (s : AppState) : Except HTTPError MaintenanceDoc × AppState :=
  match s.db.assets.find? (fun a => a.asset_id == payload.asset_id) with
  | none => (.error ⟨404, "Asset not found"⟩, s)
  | some _ =>
    let record : MaintenanceDoc :=
      { asset_id := payload.asset_id
        service_date := payload.service_date
        service_type := payload.service_type
        cost := payload.cost
        notes := payload.notes
        next_service_date := payload.next_service_date
        created_by := user.email
        created_at := now }
    let maintenance1 := s.db.maintenance ++ [record]
    let assets1 := updateFirst (fun a => a.asset_id == payload.asset_id)
      (fun a => { a with status := "maintenance", updated_at := now }) s.db.assets
    (.ok record,
     { s with db := { s.db with maintenance := maintenance1, assets := assets1 } })

/-- GET /maintenance: optional exact filter by asset_id, empty string falsy. -/
def list_maintenance (asset_id : Option String) (s : AppState) : List MaintenanceDoc :=
  s.db.maintenance.filter (fun m =>
    match asset_id with
    | some aid => if aid = "" then true else m.asset_id == aid
    | none => true)

/-- GET /maintenance/reminders: records whose next_service_date lies in
[today, today + days]; records without a next_service_date never match the
string-range filter. -/
def maintenance_reminders (days : Nat) (today : Nat) (s : AppState) : List MaintenanceDoc :=
  s.db.maintenance.filter (fun m =>
    match m.next_service_date with
    | some d => decide (today ≤ d) && decide (d ≤ today + days)
    | none => false)

/-- GET /alerts/low-inventory: thresholds with current_level strictly below
min_level. -/
def low_inventory_alerts (s : AppState) : List ThresholdDoc :=
  s.db.thresholds.filter (fun t => decide (t.current_level < t.min_level))

/-- GET /requisitions: optional exact filter by status, empty string falsy. -/
def list_requisitions (status : Option String) (s : AppState) : List RequisitionDoc :=
  s.db.requisitions.filter (fun r =>
    match status with
    | some st => if st = "" then true else r.status == st
    | none => true)

/-- Result payload of the read-only routes. -/
inductive ReadResult where
  | assetList (items : List AssetDoc)
  | assetOne (a : AssetDoc)
  | assignmentList (items : List AssignmentDoc)
  | maintList (items : List MaintenanceDoc)
  | thresholdList (items : List ThresholdDoc)
  | requisitionList (items : List RequisitionDoc)
  deriving Repr, DecidableEq

/-- The read-only routes of the app with their query parameters. -/
inductive ReadRequest where
  | listAssets (q : Option String)
  | getAsset (asset_id : String)
  | listAssignments (asset_id : Option String) (active : Option Bool)
  | listMaintenance (asset_id : Option String)
  | maintenanceReminders (days : Nat)
  | lowInventoryAlerts
  | listRequisitions (status : Option String)
  deriving Repr, DecidableEq

/-- Dispatch of the read-only routes. As in the source, none of these route
functions declares an authentication dependency, so the bearer credentials a
caller may send are never consulted; the credentials argument models the
header of the incoming request. -/
def handleRead (r : ReadRequest) (credentials : Option HTTPAuthorizationCredentials)
    (today : Nat) (s : AppState) : Except HTTPError ReadResult :=
  match r with
  | .listAssets q => .ok (.assetList (list_assets q s))
  | .getAsset aid =>
    match get_asset aid s with
    | .error e => .error e
    | .ok a => .ok (.assetOne a)
  | .listAssignments aid act => .ok (.assignmentList (list_assignments aid act s))
  | .listMaintenance aid => .ok (.maintList (list_maintenance aid s))
  | .maintenanceReminders days => .ok (.maintList (maintenance_reminders days today s))
  | .lowInventoryAlerts => .ok (.thresholdList (low_inventory_alerts s))
  | .listRequisitions st => .ok (.requisitionList (list_requisitions st s))

/-- Tells whether a result is an authentication or authorization failure
(status 401 or 403). -/
def isAuthError {α : Type} : Except HTTPError α → Bool
  | .error e => e.status == 401 || e.status == 403
  | .ok _ => false

/-- Identity stand-in for the opaque deterministic password digest, used in
concrete scenarios. -/
def hashId : String → String := fun p => p

/-- Empty document store. -/
def emptyDB : DB :=
  { users := [], assets := [], assignments := [], maintenance := [],
    thresholds := [], requisitions := [] }

/-- A first registrant who chose role staff, so that no admin exists. -/
def userStaffC1 : UserDoc :=
  { name := "Alice", email := "alice@example.com", role := "staff",
    is_active := true, hashed_password := "pwA", created_at := 0, updated_at := 0 }

/-- State after one registration whose requested role was staff. -/
def sC1 : AppState := { db := { emptyDB with users := [userStaffC1] }, tokens := [] }

/-- A second registration requesting the admin role. -/
def regC1 : RegisterRequest :=
  { name := "Bob", email := "bob@example.com", password := "pwB", role := "admin" }

/-- C1 counterexample: in a store that already holds one user (so this is not
the first registration) but no admin, a registration requesting role admin is
honored: the response role is "admin", not "staff", refuting the claim that
every non-first registration is forced to staff. -/
theorem register_nonfirst_admin_cex :
    sC1.db.users.length = 1 ∧
    (register hashId 0 "tokC1" regC1 sC1).1 =
      .ok { token := "tokC1", role := "admin", name := "Bob", email := "bob@example.com" } :=
  ⟨rfl, rfl⟩

/-- C1 amended: for every registration made while a user with role admin
already exists in the store, the requested role is ignored and both the
persisted user and the response carry role "staff"; when no admin exists yet,
even a non-first registration receives its requested role. -/
theorem register_forces_staff_when_admin_exists
    (hashPassword : String → String) (now : Nat) (newToken : String)
    (payload : RegisterRequest) (s : AppState) (r : AuthResponse) (s1 : AppState)
    (hadmin : ∃ u, u ∈ s.db.users ∧ u.role = "admin")
    (hrun : register hashPassword now newToken payload s = (.ok r, s1)) :
    r.role = "staff" ∧
    ∃ ud, ud ∈ s1.db.users ∧ ud.email = payload.email ∧ ud.role = "staff" := by
  obtain ⟨u, hu, hurole⟩ := hadmin
  have hadm : (s.db.users.find? (fun v => v.role == "admin")).isSome := by
    rw [List.find?_isSome]
    exact ⟨u, hu, by simp [hurole]⟩
  obtain ⟨w0, hw0⟩ := Option.isSome_iff_exists.mp hadm
  simp only [register, hw0] at hrun
  cases hmail : s.db.users.find? (fun v => v.email == payload.email) with
  | some w =>
    rw [hmail] at hrun
    simp at hrun
  | none =>
    rw [hmail] at hrun
    simp only [Option.isNone_some, Bool.false_eq_true, if_false,
      reduceCtorEq, ite_false] at hrun
    have hr : r = ⟨newToken, "staff", payload.name, payload.email⟩ := by
      have := congrArg Prod.fst hrun
      simp at this
      exact this.symm
    have hs1 : s1.db.users = s.db.users ++
        [⟨payload.name, payload.email, "staff", true,
          hashPassword payload.password, now, now⟩] := by
      have := congrArg (fun p => p.2.db.users) hrun
      simp at this
      exact this.symm
    refine ⟨by rw [hr], ⟨⟨payload.name, payload.email, "staff", true,
      hashPassword payload.password, now, now⟩, ?_, rfl, rfl⟩⟩
    rw [hs1]
    exact List.mem_append_right _ (List.mem_singleton.mpr rfl)

/-- Applying a filter-preserving update to the first match keeps it the first
match of find?. -/
theorem find?_updateFirst {α : Type} (p : α → Bool) (f : α → α) (l : List α) (x : α)
    (hx : l.find? p = some x) (hf : p (f x) = p x) :
    (updateFirst p f l).find? p = some (f x) := by
  induction l with
  | nil => simp at hx
  | cons a t ih =>
    by_cases ha : p a = true
    · rw [List.find?_cons_of_pos _ ha] at hx
      cases hx
      simp only [updateFirst, if_pos ha]
      exact List.find?_cons_of_pos _ (by rw [hf]; exact ha)
    · rw [List.find?_cons_of_neg _ (by simpa using ha)] at hx
      simp only [updateFirst, if_neg ha]
      rw [List.find?_cons_of_neg _ (by simpa using ha)]
      exact ih hx

/-- A deactivated assignment copy never matches the active filter. -/
theorem isActiveFor_set_inactive (aid : String) (a : AssignmentDoc) :
    isActiveFor aid { a with active := false } = false := by
  simp [isActiveFor]

/-- After deactivateAll, no assignment of that asset matches the active filter. -/
theorem filter_deactivateAll_self (aid : String) (l : List AssignmentDoc) :
    (deactivateAll aid l).filter (isActiveFor aid) = [] := by
  induction l with
  | nil => rfl
  | cons a t ih =>
    simp only [deactivateAll, List.map_cons] at *
    by_cases h : isActiveFor aid a = true
    · rw [if_pos h, List.filter_cons, isActiveFor_set_inactive]
      simpa using ih
    · rw [if_neg h, List.filter_cons]
      simp only [h, if_false, Bool.false_eq_true, ite_false]
      exact ih

/-- deactivateAll for one asset does not affect the active filter of another. -/
theorem filter_deactivateAll_other (aid aid2 : String) (hne : aid2 ≠ aid)
    (l : List AssignmentDoc) :
    (deactivateAll aid l).filter (isActiveFor aid2) = l.filter (isActiveFor aid2) := by
  induction l with
  | nil => rfl
  | cons a t ih =>
    simp only [deactivateAll, List.map_cons] at *
    by_cases h : isActiveFor aid a = true
    · have haid : a.asset_id = aid := by
        have := h
        simp [isActiveFor] at this
        exact this.1
      have h2 : isActiveFor aid2 { a with active := false } = false := by
        simp [isActiveFor, haid]
      have h3 : isActiveFor aid2 a = false := by
        simp [isActiveFor, haid]
        intro hcontra
        exact absurd hcontra.symm hne
      rw [if_pos h, List.filter_cons, List.filter_cons, h2, h3]
      simpa using ih
    · rw [if_neg h, List.filter_cons, List.filter_cons]
      by_cases h2 : isActiveFor aid2 a = true
      · simp only [h2, if_true, ite_true]
        rw [ih]
      · simp only [h2, Bool.false_eq_true, if_false, ite_false]
        exact ih

/-- When no assignment of the asset is active, deactivateAll changes nothing. -/
theorem deactivateAll_of_no_active (aid : String) (l : List AssignmentDoc)
    (h : l.filter (isActiveFor aid) = []) : deactivateAll aid l = l := by
  have hall := List.filter_eq_nil_iff.mp h
  induction l with
  | nil => rfl
  | cons a t ih =>
    simp only [deactivateAll, List.map_cons]
    have ha : ¬ isActiveFor aid a = true := hall a (List.mem_cons_self a t)
    rw [if_neg ha]
    have ht : deactivateAll aid t = t := by
      apply ih
      · rw [List.filter_cons] at h
        simp only [ha, Bool.false_eq_true, if_false, ite_false] at h
        exact h
      · intro b hb
        exact hall b (List.mem_cons_of_mem a hb)
    simp only [deactivateAll] at ht
    rw [ht]

/-- A user who registered first with role staff, used for the C2 scenario. -/
def aliceC2 : UserDoc :=
  { name := "Alice", email := "alice2@example.com", role := "staff",
    is_active := true, hashed_password := "pwA", created_at := 0, updated_at := 0 }

/-- State holding one user and one session that expires at twelveHours. -/
def sC2 : AppState :=
  { db := { emptyDB with users := [aliceC2] },
    tokens := [("tokC2", { email := "alice2@example.com", role := "staff",
                           issued_at := 0, expires_at := twelveHours })] }

/-- C2: at one tick past expiry, get_current_user removes the session entry
from the token table, yet the call still succeeds and returns the user: the
raise of the expiry rejection is swallowed by the surrounding bare except in
the source, so an expired session is not rejected on the call that detects
the expiry. -/
theorem expired_token_authenticates :
    (get_current_user (twelveHours + 1) (some ⟨"Bearer", "tokC2"⟩) sC2).1 = .ok aliceC2 ∧
    (get_current_user (twelveHours + 1) (some ⟨"Bearer", "tokC2"⟩) sC2).2.tokens = [] :=
  ⟨rfl, rfl⟩

/-- A deactivated user with a still-valid session, used for the C3 scenario. -/
def bobC3 : UserDoc :=
  { name := "Bob", email := "bob3@example.com", role := "staff",
    is_active := false, hashed_password := "pwB", created_at := 0, updated_at := 0 }

/-- State holding one deactivated user and a valid session for that user. -/
def sC3 : AppState :=
  { db := { emptyDB with users := [bobC3] },
    tokens := [("tokC3", { email := "bob3@example.com", role := "staff",
                           issued_at := 0, expires_at := twelveHours })] }

/-- C3 counterexample: the session user has is_active = false, the session is
unexpired, and the very next authenticated request succeeds instead of being
rejected: the active flag is never consulted by the source. -/
theorem deactivated_user_authenticates_cex :
    bobC3.is_active = false ∧
    (get_current_user 10 (some ⟨"Bearer", "tokC3"⟩) sC3).1 = .ok bobC3 :=
  ⟨rfl, rfl⟩

/-- Shared evaluation lemma: with well-formed bearer credentials, a stored
unexpired session and a live user record, get_current_user returns that
record and leaves the state unchanged. -/
theorem get_current_user_ok_of
    (now : Nat) (tok : String) (payload : SessionPayload) (u : UserDoc) (s : AppState)
    (htok : tokensGet s.tokens tok = some payload)
    (hexp : ¬ payload.expires_at < now)
    (huser : s.db.users.find? (fun v => v.email == payload.email) = some u) :
    get_current_user now (some ⟨"Bearer", tok⟩) s = (.ok u, s) := by
  have hb : ¬ (lowerStr "Bearer" ≠ "bearer") := by decide
  simp only [get_current_user, if_neg hb, htok, if_neg hexp, huser]

/-- C3 amended: deactivating the session user (active flag false) does not
cause the next authenticated request with that token to be rejected: the
request succeeds and returns the deactivated user, because the source never
consults the active flag. -/
theorem get_current_user_ignores_active_flag
    (now : Nat) (tok : String) (payload : SessionPayload) (u : UserDoc) (s : AppState)
    (htok : tokensGet s.tokens tok = some payload)
    (hexp : ¬ payload.expires_at < now)
    (huser : s.db.users.find? (fun v => v.email == payload.email) = some u)
    (hinactive : u.is_active = false) :
    get_current_user now (some ⟨"Bearer", tok⟩) s = (.ok u, s) :=
  get_current_user_ok_of now tok payload u s htok hexp huser

/-- C3 witness: concrete deactivated user bobC3 whose next request succeeds. -/
theorem get_current_user_ignores_active_flag_witness :
    get_current_user 10 (some ⟨"Bearer", "tokC3"⟩) sC3 = (.ok bobC3, sC3) :=
  get_current_user_ignores_active_flag 10 "tokC3"
    ⟨"bob3@example.com", "staff", 0, twelveHours⟩ bobC3 sC3 rfl (by decide) rfl rfl

/-- An admin user already present in the store, for the C1 witness. -/
def adminW1 : UserDoc :=
  { name := "Root", email := "root@example.com", role := "admin",
    is_active := true, hashed_password := "pwR", created_at := 0, updated_at := 0 }

/-- State with one admin user. -/
def sW1 : AppState := { db := { emptyDB with users := [adminW1] }, tokens := [] }

/-- Registration requesting role manager while an admin exists. -/
def regW1 : RegisterRequest :=
  { name := "Eve", email := "eve@example.com", password := "pwE", role := "manager" }

/-- Response of that registration: the role comes back as staff. -/
def rW1 : AuthResponse :=
  { token := "tokW1", role := "staff", name := "Eve", email := "eve@example.com" }

/-- User persisted by that registration. -/
def eveW1 : UserDoc :=
  { name := "Eve", email := "eve@example.com", role := "staff",
    is_active := true, hashed_password := "pwE", created_at := 5, updated_at := 5 }

/-- State after that registration. -/
def sW1post : AppState :=
  { db := { emptyDB with users := [adminW1, eveW1] },
    tokens := [("tokW1", { email := "eve@example.com", role := "staff",
                           issued_at := 5, expires_at := 5 + twelveHours })] }

/-- C1 witness: with an admin in the store, a registration requesting manager
is persisted and answered with role staff. -/
theorem register_forces_staff_when_admin_exists_witness :
    rW1.role = "staff" ∧
    ∃ ud, ud ∈ sW1post.db.users ∧ ud.email = regW1.email ∧ ud.role = "staff" :=
  register_forces_staff_when_admin_exists hashId 5 "tokW1" regW1 sW1 rW1 sW1post
    ⟨adminW1, by simp [sW1, emptyDB], rfl⟩ rfl

/-- C4: a login whose email is not stored and a login whose email is stored
but whose hashed password does not match fail with the same status code and
the same message, and neither changes the state. -/
theorem login_uniform_invalid_credentials
    (hashPassword : String → String) (now1 now2 : Nat) (tok1 tok2 : String)
    (p1 p2 : LoginRequest) (u : UserDoc) (s : AppState)
    (h1 : s.db.users.find? (fun v => v.email == p1.email) = none)
    (h2 : s.db.users.find? (fun v => v.email == p2.email) = some u)
    (h3 : u.hashed_password ≠ hashPassword p2.password) :
    login hashPassword now1 tok1 p1 s = (.error ⟨401, "Invalid credentials"⟩, s) ∧
    login hashPassword now2 tok2 p2 s = (.error ⟨401, "Invalid credentials"⟩, s) := by
  constructor
  · simp only [login, h1]
  · simp only [login, h2, if_pos h3]

/-- A stored user whose password digest is pwC, for the C4 witness. -/
def caroW4 : UserDoc :=
  { name := "Caro", email := "caro@example.com", role := "staff",
    is_active := true, hashed_password := "pwC", created_at := 0, updated_at := 0 }

/-- State with that single user. -/
def sW4 : AppState := { db := { emptyDB with users := [caroW4] }, tokens := [] }

/-- C4 witness: unknown email and wrong password produce the identical error. -/
theorem login_uniform_invalid_credentials_witness :
    login hashId 0 "t1" ⟨"ghost@example.com", "x"⟩ sW4 =
      (.error ⟨401, "Invalid credentials"⟩, sW4) ∧
    login hashId 0 "t2" ⟨"caro@example.com", "wrong"⟩ sW4 =
      (.error ⟨401, "Invalid credentials"⟩, sW4) :=
  login_uniform_invalid_credentials hashId 0 0 "t1" "t2" ⟨"ghost@example.com", "x"⟩
    ⟨"caro@example.com", "wrong"⟩ caroW4 sW4 rfl rfl (by decide)

/-- C6: with a stored unexpired session and a live user record, the outcome of
require_role is decided by the role currently stored in the user collection:
the role snapshot inside the session payload is unconstrained here and does
not appear in the conclusion, so a role change after issuance takes effect on
the very next check. -/
theorem require_role_uses_live_role
    (required : List String) (now : Nat) (tok : String) (payload : SessionPayload)
    (u : UserDoc) (s : AppState)
    (htok : tokensGet s.tokens tok = some payload)
    (hexp : ¬ payload.expires_at < now)
    (huser : s.db.users.find? (fun v => v.email == payload.email) = some u) :
    require_role required now (some ⟨"Bearer", tok⟩) s =
      ((if required.contains u.role then Except.ok u
        else Except.error ⟨403, "Insufficient permissions"⟩), s) := by
  have hgcu := get_current_user_ok_of now tok payload u s htok hexp huser
  simp only [require_role, hgcu]
  by_cases hc : required.contains u.role
  · rw [if_pos hc, if_pos hc]
  · rw [if_neg hc, if_neg hc]

/-- A user downgraded to staff in storage while the session snapshot still
says admin, for the C6 witness. -/
def danW6 : UserDoc :=
  { name := "Dan", email := "dan@example.com", role := "staff",
    is_active := true, hashed_password := "pwD", created_at := 0, updated_at := 0 }

/-- State with the downgraded user and a session whose snapshot role is admin. -/
def sW6 : AppState :=
  { db := { emptyDB with users := [danW6] },
    tokens := [("tokW6", { email := "dan@example.com", role := "admin",
                           issued_at := 0, expires_at := twelveHours })] }

/-- C6 witness: the admin-only check on the stale admin snapshot is decided by
the live staff role. -/
theorem require_role_uses_live_role_witness :
    require_role ["admin"] 10 (some ⟨"Bearer", "tokW6"⟩) sW6 =
      ((if (["admin"] : List String).contains danW6.role then Except.ok danW6
        else Except.error ⟨403, "Insufficient permissions"⟩), sW6) :=
  require_role_uses_live_role ["admin"] 10 "tokW6"
    ⟨"dan@example.com", "admin", 0, twelveHours⟩ danW6 sW6 rfl (by decide) rfl

/-- Assignments of one asset that are currently active, the shape of the query
GET /assignments?asset_id=aid&active=true. -/
def activeAssignmentsFor (aid : String) (s : AppState) : List AssignmentDoc :=
  s.db.assignments.filter (isActiveFor aid)

/-- Invariant of the assignment collection: every asset has at most one active
assignment. -/
def atMostOneActive (s : AppState) : Prop :=
  ∀ aid : String, (activeAssignmentsFor aid s).length ≤ 1

/-- For a nonempty asset_id, the assignment list endpoint with active=true is
exactly the active filter for that asset. -/
theorem list_assignments_active_eq (aid : String) (hne : aid ≠ "") (s : AppState) :
    list_assignments (some aid) (some true) s = activeAssignmentsFor aid s := by
  unfold list_assignments activeAssignmentsFor
  apply List.filter_congr
  intro a _
  simp [isActiveFor, hne]

/-- C5: creating an assignment preserves the at-most-one-active-per-asset
invariant, and on success the active assignments of the requested asset are
exactly the newly inserted record, which the query endpoint returns. -/
theorem create_assignment_single_active
    (now : Nat) (user : UserDoc) (payload : AssignmentCreateRequest)
    (s : AppState) (res : Except HTTPError AssignmentDoc) (s1 : AppState)
    (hrun : create_assignment now user payload s = (res, s1))
    (hinv : atMostOneActive s) :
    atMostOneActive s1 ∧
    ∀ r, res = .ok r →
      activeAssignmentsFor payload.asset_id s1 = [r] ∧
      (payload.asset_id ≠ "" →
        list_assignments (some payload.asset_id) (some true) s1 = [r]) := by
  cases hfind : s.db.assets.find? (fun a => a.asset_id == payload.asset_id) with
  | none =>
    simp only [create_assignment, hfind] at hrun
    have hres := congrArg Prod.fst hrun
    have hs1 := congrArg Prod.snd hrun
    simp only at hres hs1
    subst hs1
    constructor
    · exact hinv
    · intro r hr
      rw [← hres] at hr
      simp at hr
  | some a0 =>
    simp only [create_assignment, hfind] at hrun
    have hres := congrArg Prod.fst hrun
    have hs1 := congrArg Prod.snd hrun
    simp only at hres hs1
    subst hs1
    have hactive : activeAssignmentsFor payload.asset_id
        { s with db := { s.db with
            assignments := deactivateAll payload.asset_id s.db.assignments ++
              [⟨payload.asset_id, payload.assignee_type, payload.assignee_name,
                payload.issue_date, payload.responsible_person, payload.designation,
                payload.notes, true, user.email, now⟩],
            assets := updateFirst (fun a => a.asset_id == payload.asset_id)
              (fun a => { a with status := "assigned", updated_at := now })
              s.db.assets } } =
        [⟨payload.asset_id, payload.assignee_type, payload.assignee_name,
          payload.issue_date, payload.responsible_person, payload.designation,
          payload.notes, true, user.email, now⟩] := by
      unfold activeAssignmentsFor
      rw [List.filter_append, filter_deactivateAll_self]
      simp [isActiveFor]
    constructor
    · intro aid2
      by_cases he : aid2 = payload.asset_id
      · subst he
        rw [hactive]
        exact Nat.le_refl 1
      · unfold activeAssignmentsFor
        rw [List.filter_append, filter_deactivateAll_other _ _ he]
        have hnew : List.filter (isActiveFor aid2)
            [⟨payload.asset_id, payload.assignee_type, payload.assignee_name,
              payload.issue_date, payload.responsible_person, payload.designation,
              payload.notes, true, user.email, now⟩] = [] := by
          simp [isActiveFor]
          intro hcontra
          exact absurd hcontra.symm he
        rw [hnew, List.append_nil]
        exact hinv aid2
    · intro r hr
      rw [← hres] at hr
      have hrr : r = ⟨payload.asset_id, payload.assignee_type, payload.assignee_name,
          payload.issue_date, payload.responsible_person, payload.designation,
          payload.notes, true, user.email, now⟩ := by
        cases hr
        rfl
      subst hrr
      refine ⟨hactive, fun hne => ?_⟩
      rw [list_assignments_active_eq _ hne]
      exact hactive

/-- A manager caller for the C5 witness. -/
def mgrW5 : UserDoc :=
  { name := "Mia", email := "mia@example.com", role := "manager",
    is_active := true, hashed_password := "pwM", created_at := 0, updated_at := 0 }

/-- An available asset for the C5 witness. -/
def assetW5 : AssetDoc :=
  { asset_id := "A1", name := "Laptop", type := "IT", serial_number := none,
    purchase_date := none, supplier_name := none, warranty_period_months := none,
    status := "available", documents := [], created_by := "root@example.com",
    created_at := 0, updated_at := 0 }

/-- State with that asset and no assignments. -/
def sW5 : AppState := { db := { emptyDB with assets := [assetW5] }, tokens := [] }

/-- Assignment request for that asset. -/
def payloadW5 : AssignmentCreateRequest :=
  { asset_id := "A1", assignee_type := "department", assignee_name := "Finance",
    issue_date := 3, responsible_person := none, designation := none, notes := none }

/-- Assignment record created by that request. -/
def asgW5 : AssignmentDoc :=
  { asset_id := "A1", assignee_type := "department", assignee_name := "Finance",
    issue_date := 3, responsible_person := none, designation := none, notes := none,
    active := true, created_by := "mia@example.com", created_at := 7 }

/-- State after that assignment is created. -/
def sW5post : AppState :=
  { db := { emptyDB with
      assets := [{ assetW5 with status := "assigned", updated_at := 7 }],
      assignments := [asgW5] },
    tokens := [] }

/-- C5 witness: a concrete creation run preserving the invariant and making
the active query return exactly the new record. -/
theorem create_assignment_single_active_witness :
    atMostOneActive sW5post ∧
    ∀ r, (Except.ok asgW5 : Except HTTPError AssignmentDoc) = .ok r →
      activeAssignmentsFor payloadW5.asset_id sW5post = [r] ∧
      (payloadW5.asset_id ≠ "" →
        list_assignments (some payloadW5.asset_id) (some true) sW5post = [r]) :=
  create_assignment_single_active 7 mgrW5 payloadW5 sW5 (.ok asgW5) sW5post rfl
    (by intro aid; simp [activeAssignmentsFor, sW5, emptyDB])

/-- C7: returning an asset with no active assignment fails with 404 and leaves
the whole state unchanged; returning an asset that has an active assignment
succeeds, deactivates it (the deactivated copy is stored and no active
assignment of the asset remains) and sets the asset status to available. -/
theorem return_asset_spec (now : Nat) (user : UserDoc) (aid : String) (s : AppState) :
    (activeAssignmentsFor aid s = [] →
      return_asset aid now user s = (.error ⟨404, "No active assignment found"⟩, s)) ∧
    (∀ x a0, x ∈ s.db.assignments → isActiveFor aid x = true →
      s.db.assets.find? (fun a => a.asset_id == aid) = some a0 →
      (return_asset aid now user s).1 = .ok "Asset returned" ∧
      { x with active := false } ∈ (return_asset aid now user s).2.db.assignments ∧
      activeAssignmentsFor aid (return_asset aid now user s).2 = [] ∧
      (return_asset aid now user s).2.db.assets.find? (fun a => a.asset_id == aid) =
        some { a0 with status := "available", updated_at := now }) := by
  constructor
  · intro h
    have hda : deactivateAll aid s.db.assignments = s.db.assignments :=
      deactivateAll_of_no_active _ _ h
    have h0 : s.db.assignments.filter (isActiveFor aid) = [] := h
    simp only [return_asset, h0, List.length_nil, if_pos, hda]
  · intro x a0 hx hxa hfind
    have hne : s.db.assignments.filter (isActiveFor aid) ≠ [] := by
      intro hnil
      exact List.filter_eq_nil_iff.mp hnil x hx hxa
    have hlen : ¬ (s.db.assignments.filter (isActiveFor aid)).length = 0 := by
      simpa [List.length_eq_zero] using hne
    simp only [return_asset, if_neg hlen]
    refine ⟨trivial, ?_, ?_, ?_⟩
    · have hmem := List.mem_map_of_mem
        (fun a => if isActiveFor aid a then { a with active := false } else a) hx
      simp only [hxa, ite_true] at hmem
      exact hmem
    · exact filter_deactivateAll_self aid s.db.assignments
    · exact find?_updateFirst _ _ _ _ hfind rfl

/-- A manager caller for the C7 witness. -/
def userW7 : UserDoc :=
  { name := "Ned", email := "ned@example.com", role := "manager",
    is_active := true, hashed_password := "pwN", created_at := 0, updated_at := 0 }

/-- Empty store for the C7 witness. -/
def sW7 : AppState := { db := emptyDB, tokens := [] }

/-- C7 witness: returning an asset with no active assignment fails with 404
and changes nothing. -/
theorem return_asset_spec_witness :
    return_asset "AX" 3 userW7 sW7 = (.error ⟨404, "No active assignment found"⟩, sW7) :=
  (return_asset_spec 3 userW7 "AX" sW7).1 rfl

/-- C8: for every existing asset, recording maintenance succeeds and sets the
asset status to "maintenance" unconditionally; the request payload is fully
universally quantified, so this holds for a future service_date and for an
inspection-only record alike. -/
theorem add_maintenance_sets_status
    (now : Nat) (user : UserDoc) (payload : MaintenanceCreateRequest)
    (s : AppState) (a0 : AssetDoc)
    (hfind : s.db.assets.find? (fun a => a.asset_id == payload.asset_id) = some a0) :
    (add_maintenance now user payload s).1 =
      .ok ⟨payload.asset_id, payload.service_date, payload.service_type, payload.cost,
           payload.notes, payload.next_service_date, user.email, now⟩ ∧
    (add_maintenance now user payload s).2.db.assets.find?
        (fun a => a.asset_id == payload.asset_id) =
      some { a0 with status := "maintenance", updated_at := now } := by
  simp only [add_maintenance, hfind]
  exact ⟨trivial, find?_updateFirst _ _ _ _ hfind rfl⟩

/-- Caller for the C8 witness. -/
def userW8 : UserDoc :=
  { name := "Olga", email := "olga@example.com", role := "admin",
    is_active := true, hashed_password := "pwO", created_at := 0, updated_at := 0 }

/-- An available asset for the C8 witness. -/
def assetW8 : AssetDoc :=
  { asset_id := "A8", name := "Drill", type := "Tool", serial_number := none,
    purchase_date := none, supplier_name := none, warranty_period_months := none,
    status := "available", documents := [], created_by := "root@example.com",
    created_at := 0, updated_at := 0 }

/-- State with that asset. -/
def sW8 : AppState := { db := { emptyDB with assets := [assetW8] }, tokens := [] }

/-- Inspection-only maintenance request dated far in the future (current time
in the scenario is 5). -/
def payW8 : MaintenanceCreateRequest :=
  { asset_id := "A8", service_date := 99999, service_type := "inspection",
    cost := none, notes := none, next_service_date := some 100000 }

/-- C8 witness: a future-dated inspection record still flips the asset status
to maintenance. -/
theorem add_maintenance_sets_status_witness :
    (add_maintenance 5 userW8 payW8 sW8).1 =
      .ok ⟨payW8.asset_id, payW8.service_date, payW8.service_type, payW8.cost,
           payW8.notes, payW8.next_service_date, userW8.email, 5⟩ ∧
    (add_maintenance 5 userW8 payW8 sW8).2.db.assets.find?
        (fun a => a.asset_id == payW8.asset_id) =
      some { assetW8 with status := "maintenance", updated_at := 5 } :=
  add_maintenance_sets_status 5 userW8 payW8 sW8 assetW8 rfl

/-- C9: an asset-creation request whose asset_id is already stored fails with
the duplicate-id conflict error and returns the state unchanged, so no write
of any kind happens. -/
theorem create_asset_duplicate_conflict
    (now : Nat) (user : UserDoc) (payload : AssetCreateRequest) (s : AppState)
    (hdup : ∃ a0, a0 ∈ s.db.assets ∧ a0.asset_id = payload.asset_id) :
    create_asset now user payload s = (.error ⟨400, "Asset ID already exists"⟩, s) := by
  obtain ⟨a0, ha0, hid⟩ := hdup
  have hsome : (s.db.assets.find? (fun a => a.asset_id == payload.asset_id)).isSome := by
    rw [List.find?_isSome]
    exact ⟨a0, ha0, by simp [hid]⟩
  obtain ⟨b, hb⟩ := Option.isSome_iff_exists.mp hsome
  simp only [create_asset, hb]

/-- Caller for the C9 witness. -/
def userW9 : UserDoc :=
  { name := "Pia", email := "pia@example.com", role := "admin",
    is_active := true, hashed_password := "pwP", created_at := 0, updated_at := 0 }

/-- An already-stored asset with id A9. -/
def assetW9 : AssetDoc :=
  { asset_id := "A9", name := "Scanner", type := "IT", serial_number := none,
    purchase_date := none, supplier_name := none, warranty_period_months := none,
    status := "available", documents := [], created_by := "root@example.com",
    created_at := 0, updated_at := 0 }

/-- State holding that asset. -/
def sW9 : AppState := { db := { emptyDB with assets := [assetW9] }, tokens := [] }

/-- A creation request reusing the stored id A9. -/
def payW9 : AssetCreateRequest :=
  { asset_id := "A9", name := "Printer", type := "IT", serial_number := none,
    purchase_date := none, supplier_name := none, warranty_period_months := none }

/-- C9 witness: duplicate asset_id is rejected and the state is unchanged. -/
theorem create_asset_duplicate_conflict_witness :
    create_asset 2 userW9 payW9 sW9 = (.error ⟨400, "Asset ID already exists"⟩, sW9) :=
  create_asset_duplicate_conflict 2 userW9 payW9 sW9
    ⟨assetW9, by simp [sW9, emptyDB], rfl⟩

/-- C10: every read route ignores the bearer credentials of the caller: two
calls differing only in credentials return the same result, and no read route
ever fails with a 401 or 403 error. -/
theorem read_endpoints_ignore_caller
    (r : ReadRequest) (c1 c2 : Option HTTPAuthorizationCredentials)
    (today : Nat) (s : AppState) :
    handleRead r c1 today s = handleRead r c2 today s ∧
    isAuthError (handleRead r c1 today s) = false := by
  constructor
  · cases r <;> rfl
  · cases r with
    | listAssets q => rfl
    | getAsset aid =>
      simp only [handleRead, get_asset]
      cases hf : s.db.assets.find? (fun a => a.asset_id == aid) with
      | none => rfl
      | some a => rfl
    | listAssignments aid act => rfl
    | listMaintenance aid => rfl
    | maintenanceReminders days => rfl
    | lowInventoryAlerts => rfl
    | listRequisitions st => rfl
